import Mathlib

/-
Verification of the decision logic of check_mongodb.py, an Icinga/Nagios
plugin for MongoDB monitoring. The Python source is embedded shallowly:
numeric status codes stay the plain integers the script uses, member
documents keep their integer state/health fields, metric values become
rationals, and the capacity-threshold arithmetic (which uses log10 over
machine floats) is modelled over the reals.
-/

namespace CheckMongodb

/-! ## Constants (check_mongodb.py lines 48-58) -/

def NAGIOS_OK : Nat := 0
def NAGIOS_WARNING : Nat := 1
def NAGIOS_CRITICAL : Nat := 2
def NAGIOS_UNKNOWN : Nat := 3

/-! ## IcingaOutput (lines 89-139)

Only the `status` and `messages` fields take part in the claims; the
`perfdata` and `long_output` lists are carried by methods that never touch
`status`, so they are omitted from the state. -/

structure IcingaOutput where
  status : Nat
  messages : List String
deriving Repr, DecidableEq

/-- Fresh output state as built by IcingaOutput.__init__ (lines 92-96). -/
def outputInit : IcingaOutput := { status := NAGIOS_OK, messages := [] }

/-- set_status (lines 98-105): escalate only; UNKNOWN is taken from OK and
from UNKNOWN itself, but never replaces WARNING or CRITICAL, and nothing
replaces UNKNOWN. -/
def set_status (o : IcingaOutput) (status : Nat) : IcingaOutput :=
  if status = NAGIOS_UNKNOWN ∧ o.status = NAGIOS_OK then
    { o with status := NAGIOS_UNKNOWN }
  else if o.status < status ∧ status ≠ NAGIOS_UNKNOWN then
    { o with status := status }
  else if status = NAGIOS_UNKNOWN ∧ ¬ (o.status = NAGIOS_WARNING ∨ o.status = NAGIOS_CRITICAL) then
    { o with status := NAGIOS_UNKNOWN }
  else o

/-- add_message (lines 107-110). -/
def add_message (o : IcingaOutput) (status : Nat) (message : String) : IcingaOutput :=
  let o2 := set_status o status
  { o2 with messages := o2.messages ++ [message] }

/-- A run's sequence of recorded finding severities, folded through
set_status in order. -/
def foldStatuses (o : IcingaOutput) (l : List Nat) : IcingaOutput :=
  l.foldl set_status o

/-- IcingaOutput.exit (lines 136-139) exits the process with self.status. -/
def exitCode (o : IcingaOutput) : Nat := o.status

/-! ## Replica-set member documents and the quorum loop
(AvailabilityChecker._check_replicaset, lines 399-419) -/

/-- The fields of an rsStatus member document the decision logic reads. -/
structure Member where
  state : Int
  health : Int
deriving Repr, DecidableEq

/-- The quorum loop's test (lines 409-416): health == 1 and
state in (1, 2, 7), i.e. PRIMARY, SECONDARY or ARBITER. -/
def countsAsHealthyVoting (m : Member) : Bool :=
  decide (m.health = 1) && decide (m.state = 1 ∨ m.state = 2 ∨ m.state = 7)

/-- The loop of lines 400-416: every returned member increments
voting_members; healthy_voting counts the members passing the test above.
Result: (voting_members, healthy_voting). -/
def quorumCounts (members : List Member) : Nat × Nat :=
  members.foldl
    (fun acc m => (acc.1 + 1, if countsAsHealthyVoting m then acc.2 + 1 else acc.2))
    (0, 0)

/-- majority = (voting_members // 2) + 1 (line 418). -/
def rsMajority (members : List Member) : Nat := (quorumCounts members).1 / 2 + 1

/-- quorum_ok = healthy_voting >= majority (line 419). -/
def rsQuorumOk (members : List Member) : Bool :=
  decide (rsMajority members ≤ (quorumCounts members).2)

/-- Members counted unhealthy for quorum purposes: health not 1, or state
outside {1, 2, 7}. -/
def unhealthyCount (members : List Member) : Nat :=
  members.countP fun m => ! countsAsHealthyVoting m

/-! ## Helper lemmas -/

theorem quorumCounts_eq (members : List Member) :
    quorumCounts members = (members.length, members.countP countsAsHealthyVoting) := by
  unfold quorumCounts
  suffices h : ∀ a b : Nat,
      members.foldl
        (fun acc m => (acc.1 + 1, if countsAsHealthyVoting m then acc.2 + 1 else acc.2))
        (a, b)
      = (a + members.length, b + members.countP countsAsHealthyVoting) by
    simpa using h 0 0
  induction members with
  | nil => intro a b; simp
  | cons m ms ih =>
      intro a b
      by_cases hm : countsAsHealthyVoting m
      · simp [List.foldl_cons, hm, ih, List.countP_cons]
        omega
      · simp [List.foldl_cons, hm, ih, List.countP_cons]
        omega

theorem healthy_add_unhealthy_eq_length (members : List Member) :
    members.countP countsAsHealthyVoting + unhealthyCount members = members.length := by
  unfold unhealthyCount
  induction members with
  | nil => simp
  | cons m ms ih =>
      by_cases hm : countsAsHealthyVoting m <;> simp [List.countP_cons, hm] <;> omega

/-! ## Claim theorems on the quorum computation -/

/-- Claim C1: for a replica set status of n members of which k are unhealthy
(health not 1, or state outside {PRIMARY=1, SECONDARY=2, ARBITER=7}), every
returned member counts as a voting member, and the quorum verdict is true
iff (n - k) >= floor(n / 2) + 1. -/
theorem c1_quorum_iff (members : List Member) :
    (quorumCounts members).1 = members.length
  ∧ (rsQuorumOk members = true ↔
      members.length / 2 + 1 ≤ members.length - unhealthyCount members) := by
  constructor
  · rw [quorumCounts_eq]
  · unfold rsQuorumOk rsMajority
    rw [quorumCounts_eq]
    have h := healthy_add_unhealthy_eq_length members
    simp only [decide_eq_true_eq]
    omega

/-! ## Step lemmas for set_status -/

theorem set_status_of_critical (o : IcingaOutput) (s : Nat) (ho : o.status = NAGIOS_CRITICAL)
    (hs : s ≤ NAGIOS_UNKNOWN) : (set_status o s).status = NAGIOS_CRITICAL := by
  unfold set_status NAGIOS_OK NAGIOS_WARNING NAGIOS_CRITICAL NAGIOS_UNKNOWN at *
  split_ifs with h1 h2 h3 <;> simp_all <;> omega

theorem set_status_of_warning (o : IcingaOutput) (s : Nat) (ho : o.status = NAGIOS_WARNING)
    (hs : s ≤ NAGIOS_UNKNOWN) :
    (set_status o s).status = NAGIOS_WARNING ∨ (set_status o s).status = NAGIOS_CRITICAL := by
  unfold set_status NAGIOS_OK NAGIOS_WARNING NAGIOS_CRITICAL NAGIOS_UNKNOWN at *
  split_ifs with h1 h2 h3 <;> simp_all <;> omega

theorem set_status_of_unknown (o : IcingaOutput) (s : Nat) (ho : o.status = NAGIOS_UNKNOWN)
    (hs : s ≤ NAGIOS_UNKNOWN) : (set_status o s).status = NAGIOS_UNKNOWN := by
  unfold set_status NAGIOS_OK NAGIOS_WARNING NAGIOS_CRITICAL NAGIOS_UNKNOWN at *
  split_ifs with h1 h2 h3 <;> simp_all <;> omega

theorem foldStatuses_of_critical (o : IcingaOutput) (l : List Nat)
    (hl : ∀ s ∈ l, s ≤ NAGIOS_UNKNOWN) (ho : o.status = NAGIOS_CRITICAL) :
    (foldStatuses o l).status = NAGIOS_CRITICAL := by
  induction l generalizing o with
  | nil => exact ho
  | cons s rest ih =>
      have hs : s ≤ NAGIOS_UNKNOWN := hl s (List.mem_cons_self s rest)
      exact ih (set_status o s) (fun t ht => hl t (List.mem_cons_of_mem s ht))
        (set_status_of_critical o s ho hs)

theorem foldStatuses_of_warning (o : IcingaOutput) (l : List Nat)
    (hl : ∀ s ∈ l, s ≤ NAGIOS_UNKNOWN) (ho : o.status = NAGIOS_WARNING) :
    (foldStatuses o l).status = NAGIOS_WARNING ∨ (foldStatuses o l).status = NAGIOS_CRITICAL := by
  induction l generalizing o with
  | nil => exact Or.inl ho
  | cons s rest ih =>
      have hs : s ≤ NAGIOS_UNKNOWN := hl s (List.mem_cons_self s rest)
      have hrest : ∀ t ∈ rest, t ≤ NAGIOS_UNKNOWN := fun t ht => hl t (List.mem_cons_of_mem s ht)
      rcases set_status_of_warning o s ho hs with h | h
      · exact ih (set_status o s) hrest h
      · exact Or.inr (foldStatuses_of_critical (set_status o s) rest hrest h)

/-! ## Claim theorems on severity escalation -/

/-- Claim C4: the aggregator's severity update is monotone under escalation.
Once the overall status is CRITICAL, folding any further finding severities
(UNKNOWN included) leaves it CRITICAL; once WARNING, the status stays
WARNING or rises to CRITICAL, never lower; and recording UNKNOWN on an OK
run raises it to UNKNOWN. -/
theorem c4_escalation_monotone (o : IcingaOutput) (l : List Nat)
    (hl : ∀ s ∈ l, s ≤ NAGIOS_UNKNOWN) :
    (o.status = NAGIOS_CRITICAL → (foldStatuses o l).status = NAGIOS_CRITICAL)
  ∧ (o.status = NAGIOS_WARNING →
      NAGIOS_WARNING ≤ (foldStatuses o l).status
      ∧ (foldStatuses o l).status ≤ NAGIOS_CRITICAL)
  ∧ (o.status = NAGIOS_OK → (set_status o NAGIOS_UNKNOWN).status = NAGIOS_UNKNOWN) := by
  refine ⟨fun ho => foldStatuses_of_critical o l hl ho, fun ho => ?_, fun ho => ?_⟩
  · rcases foldStatuses_of_warning o l hl ho with h | h <;> rw [h] <;> constructor <;> decide
  · unfold set_status
    rw [ho]
    simp

/-- Witness for C4 at a concrete run: starting from a recorded WARNING and
folding the findings [UNKNOWN, CRITICAL, OK], the overall severity never
drops below WARNING. -/
theorem c4_escalation_monotone_witness :
    NAGIOS_WARNING ≤
      (foldStatuses { status := NAGIOS_WARNING, messages := [] }
        [NAGIOS_UNKNOWN, NAGIOS_CRITICAL, NAGIOS_OK]).status :=
  ((c4_escalation_monotone { status := NAGIOS_WARNING, messages := [] }
    [NAGIOS_UNKNOWN, NAGIOS_CRITICAL, NAGIOS_OK] (by decide)).2.1 rfl).1

/-- Claim C10: UNKNOWN is absorbing in the aggregator. Once the overall
status is UNKNOWN, folding any later finding severities (WARNING and
CRITICAL included) leaves it UNKNOWN, so the process exit code stays 3. -/
theorem c10_unknown_absorbing (o : IcingaOutput) (l : List Nat)
    (hl : ∀ s ∈ l, s ≤ NAGIOS_UNKNOWN) (ho : o.status = NAGIOS_UNKNOWN) :
    (foldStatuses o l).status = NAGIOS_UNKNOWN
    ∧ exitCode (foldStatuses o l) = NAGIOS_UNKNOWN := by
  have main : (foldStatuses o l).status = NAGIOS_UNKNOWN := by
    induction l generalizing o with
    | nil => exact ho
    | cons s rest ih =>
        have hs : s ≤ NAGIOS_UNKNOWN := hl s (List.mem_cons_self s rest)
        exact ih (set_status o s) (fun t ht => hl t (List.mem_cons_of_mem s ht))
          (set_status_of_unknown o s ho hs)
  exact ⟨main, main⟩

/-- Witness for C10 at a concrete run: an UNKNOWN output followed by a
CRITICAL and a WARNING finding still ends UNKNOWN (exit code 3). -/
theorem c10_unknown_absorbing_witness :
    (foldStatuses { status := NAGIOS_UNKNOWN, messages := [] }
      [NAGIOS_CRITICAL, NAGIOS_WARNING]).status = NAGIOS_UNKNOWN :=
  (c10_unknown_absorbing { status := NAGIOS_UNKNOWN, messages := [] }
    [NAGIOS_CRITICAL, NAGIOS_WARNING] (by decide) rfl).1

/-! ## Per-node reconciliation
(AvailabilityChecker._check_replicaset, lines 427-519)

For each URI host the loop probes the node directly, looks it up in the
indirect (rsStatus) view, and then classifies it, incrementing nodes_ok or
nodes_down and possibly recording a CRITICAL finding. Verbose-only
add_long_output lines never touch the status and are not modelled. -/

inductive NodeClass where
  | healthy
  | healthyArbiterSegregated
  | splitBrain
  | misconfiguredOrUnknown
  | networkIssue
  | down
deriving Repr, DecidableEq

/-- One node's classification together with its contribution to the
nodes_ok / nodes_down counters and the severity of the finding it records
(none when no add_message call is made for the node). -/
structure NodeResult where
  cls : NodeClass
  okInc : Nat
  downInc : Nat
  msgStatus : Option Nat
deriving Repr, DecidableEq

/-- The body of the per-node loop (lines 449-519). `direct_ok` is the
outcome of the direct ping; `indirect` the member document found for the
node in replSetGetStatus, if any. -/
def processNode (direct_ok : Bool) (indirect : Option Member) : NodeResult :=
  if direct_ok then
    match indirect with
    | some info =>
        if info.health = 1 ∧ (info.state = 1 ∨ info.state = 2 ∨ info.state = 7) then
          { cls := NodeClass.healthy, okInc := 1, downInc := 0, msgStatus := none }
        else
          { cls := NodeClass.splitBrain, okInc := 0, downInc := 1,
            msgStatus := some NAGIOS_CRITICAL }
    | none =>
        { cls := NodeClass.misconfiguredOrUnknown, okInc := 0, downInc := 1,
          msgStatus := some NAGIOS_CRITICAL }
  else
    match indirect with
    | some info =>
        if info.state = 7 ∧ info.health = 1 then
          { cls := NodeClass.healthyArbiterSegregated, okInc := 1, downInc := 0,
            msgStatus := none }
        else if info.health = 1 ∧ (info.state = 1 ∨ info.state = 2) then
          { cls := NodeClass.networkIssue, okInc := 0, downInc := 1,
            msgStatus := some NAGIOS_CRITICAL }
        else
          { cls := NodeClass.down, okInc := 0, downInc := 1,
            msgStatus := some NAGIOS_CRITICAL }
    | none =>
        { cls := NodeClass.down, okInc := 0, downInc := 1,
          msgStatus := some NAGIOS_CRITICAL }

/-- Claim C3 as stated is false on the code: an unreachable arbiter that the
cluster reports healthy is classified as the segregated-arbiter case, but
the branch (line 486) increments nodes_ok, so the node does contribute to
the direct-reachability ok/down counts. -/
theorem c3_counterexample :
    (processNode false (some { state := 7, health := 1 })).cls
      = NodeClass.healthyArbiterSegregated
  ∧ (processNode false (some { state := 7, health := 1 })).okInc = 1 := by
  decide

/-- Claim C3 amended: a node that is unreachable by the direct probe but
present in the cluster view as an Arbiter (state 7) with health 1 is
classified HealthyArbiterSegregated; it is counted toward healthyVoting in
the quorum loop, is counted in the nodes_ok counter (1 to ok, 0 to down)
of the direct-reachability summary, and records no finding, so the overall
run severity is not escalated for that node. -/
theorem c3_amended_segregated_arbiter (info : Member)
    (hstate : info.state = 7) (hhealth : info.health = 1) :
    (processNode false (some info)).cls = NodeClass.healthyArbiterSegregated
  ∧ countsAsHealthyVoting info = true
  ∧ (processNode false (some info)).okInc = 1
  ∧ (processNode false (some info)).downInc = 0
  ∧ (processNode false (some info)).msgStatus = none := by
  obtain ⟨s, h⟩ := info
  simp only at hstate hhealth
  subst hstate hhealth
  decide

/-- Witness for the amended C3 at the concrete member document
(state 7, health 1). -/
theorem c3_amended_segregated_arbiter_witness :
    (processNode false (some { state := 7, health := 1 })).okInc = 1
  ∧ (processNode false (some { state := 7, health := 1 })).msgStatus = none :=
  ⟨(c3_amended_segregated_arbiter { state := 7, health := 1 } rfl rfl).2.2.1,
   (c3_amended_segregated_arbiter { state := 7, health := 1 } rfl rfl).2.2.2.2⟩

/-! ## Sharded-deployment member classification
(AvailabilityChecker._check_sharded) -/

/-- Shard replica-set member health rule (line 682): health == 1 and
state in (1, 2, 7). -/
def shardMemberOk (m : Member) : Bool :=
  decide (m.health = 1) && decide (m.state = 1 ∨ m.state = 2 ∨ m.state = 7)

/-- Config-server replica-set member health rule (line 750): health == 1
and state in (1, 2). -/
def configMemberOk (m : Member) : Bool :=
  decide (m.health = 1) && decide (m.state = 1 ∨ m.state = 2)

/-- The shard loop's ok/down counters (lines 673-691). -/
def shardCounts (members : List Member) : Nat × Nat :=
  members.foldl
    (fun acc m => if shardMemberOk m then (acc.1 + 1, acc.2) else (acc.1, acc.2 + 1))
    (0, 0)

/-- The config-server loop's ok/down counters (lines 745-755). -/
def configCounts (members : List Member) : Nat × Nat :=
  members.foldl
    (fun acc m => if configMemberOk m then (acc.1 + 1, acc.2) else (acc.1, acc.2 + 1))
    (0, 0)

/-- Claim C9 as stated is false on the code: the config-server loop does not
apply the identical per-member rule. A member with health 1 and state 7
(ARBITER) is counted ok by the shard rule but down by the config-server
rule, which accepts only states 1 and 2. -/
theorem c9_counterexample :
    shardMemberOk { state := 7, health := 1 } = true
  ∧ configMemberOk { state := 7, health := 1 } = false
  ∧ shardCounts [{ state := 7, health := 1 }] = (1, 0)
  ∧ configCounts [{ state := 7, health := 1 }] = (0, 1) := by
  decide

/-- Claim C9 amended: for each shard's replica set a member is counted ok
iff its health is 1 and its state is one of {1, 2, 7}; for the
config-server replica set a member is counted ok iff its health is 1 and
its state is one of {1, 2} — so an Arbiter-state member of the config set
is counted down even when healthy. -/
theorem c9_amended_member_rules (m : Member) :
    (shardMemberOk m = true ↔ m.health = 1 ∧ (m.state = 1 ∨ m.state = 2 ∨ m.state = 7))
  ∧ (configMemberOk m = true ↔ m.health = 1 ∧ (m.state = 1 ∨ m.state = 2))
  ∧ (m.health = 1 → m.state = 7 → shardMemberOk m = true ∧ configMemberOk m = false) := by
  refine ⟨?_, ?_, ?_⟩
  · unfold shardMemberOk; simp
  · unfold configMemberOk; simp
  · intro hh hs
    unfold shardMemberOk configMemberOk
    rw [hh, hs]
    decide

/-- Witness for the amended C9 at the concrete member document
(state 7, health 1). -/
theorem c9_amended_member_rules_witness :
    shardMemberOk { state := 7, health := 1 } = true
  ∧ configMemberOk { state := 7, health := 1 } = false :=
  (c9_amended_member_rules { state := 7, health := 1 }).2.2 rfl rfl

/-! ## ThresholdEngine (lines 793-869)

A threshold configuration entry is a dict with optional "warning",
"critical" and "mode" keys; metric values and bounds are numbers, modelled
as rationals. The thresholds dict is modelled as an association list with
unique keys, looked up with List.lookup. -/

structure ThresholdCfg where
  warning : Option Rat
  critical : Option Rat
  mode : Option String
deriving Repr, DecidableEq

/-- `bound is not None and value <= bound` (mode below, lines 836, 843). -/
def boundCrossedBelow (bound : Option Rat) (value : Rat) : Bool :=
  match bound with
  | none => false
  | some b => decide (value ≤ b)

/-- `bound is not None and value >= bound` (mode above, lines 851, 858). -/
def boundCrossedAbove (bound : Option Rat) (value : Rat) : Bool :=
  match bound with
  | none => false
  | some b => decide (b ≤ value)

/-- ThresholdEngine.check (lines 822-865), reduced to the severity of the
message it records: none when no alert is raised. The mode defaults to
"above" (line 833) and any mode other than "below" takes the above branch
(line 850). -/
def thresholdCheck (thresholds : List (String × ThresholdCfg)) (metric_key : String)
    (value : Rat) : Option Nat :=
  match List.lookup metric_key thresholds with
  | none => none
  | some cfg =>
      let mode := cfg.mode.getD ("above")
      if mode = "below" then
        if boundCrossedBelow cfg.critical value then some NAGIOS_CRITICAL
        else if boundCrossedBelow cfg.warning value then some NAGIOS_WARNING
        else none
      else
        if boundCrossedAbove cfg.critical value then some NAGIOS_CRITICAL
        else if boundCrossedAbove cfg.warning value then some NAGIOS_WARNING
        else none

/-- ThresholdEngine.has (lines 867-869). -/
def thresholdHas (thresholds : List (String × ThresholdCfg)) (metric_key : String) : Bool :=
  (List.lookup metric_key thresholds).isSome

/-- Claim C2: the threshold engine produces at most one of
{WARNING, CRITICAL}; nothing when no policy is registered for the key; in
mode "above" CRITICAL when a critical bound is set and value >= critical,
otherwise WARNING when a warning bound is set and value >= warning,
otherwise nothing; in mode "below" the same with <=; CRITICAL strictly
dominates WARNING even when both bounds are crossed. -/
theorem c2_threshold_evaluation (thresholds : List (String × ThresholdCfg))
    (metric_key : String) (value : Rat) :
    (thresholdCheck thresholds metric_key value = none
     ∨ thresholdCheck thresholds metric_key value = some NAGIOS_WARNING
     ∨ thresholdCheck thresholds metric_key value = some NAGIOS_CRITICAL)
  ∧ (List.lookup metric_key thresholds = none →
      thresholdCheck thresholds metric_key value = none)
  ∧ (∀ cfg, List.lookup metric_key thresholds = some cfg →
      cfg.mode.getD ("above") = "above" →
      ((∃ c, cfg.critical = some c ∧ c ≤ value) →
        thresholdCheck thresholds metric_key value = some NAGIOS_CRITICAL)
      ∧ ((¬ ∃ c, cfg.critical = some c ∧ c ≤ value) →
          (∃ w, cfg.warning = some w ∧ w ≤ value) →
          thresholdCheck thresholds metric_key value = some NAGIOS_WARNING)
      ∧ ((¬ ∃ c, cfg.critical = some c ∧ c ≤ value) →
          (¬ ∃ w, cfg.warning = some w ∧ w ≤ value) →
          thresholdCheck thresholds metric_key value = none))
  ∧ (∀ cfg, List.lookup metric_key thresholds = some cfg →
      cfg.mode.getD ("above") = "below" →
      ((∃ c, cfg.critical = some c ∧ value ≤ c) →
        thresholdCheck thresholds metric_key value = some NAGIOS_CRITICAL)
      ∧ ((¬ ∃ c, cfg.critical = some c ∧ value ≤ c) →
          (∃ w, cfg.warning = some w ∧ value ≤ w) →
          thresholdCheck thresholds metric_key value = some NAGIOS_WARNING)
      ∧ ((¬ ∃ c, cfg.critical = some c ∧ value ≤ c) →
          (¬ ∃ w, cfg.warning = some w ∧ value ≤ w) →
          thresholdCheck thresholds metric_key value = none)) := by
  have hBelowIff : ∀ bound : Option Rat,
      boundCrossedBelow bound value = true ↔ ∃ b, bound = some b ∧ value ≤ b := by
    intro bound
    cases bound <;> simp [boundCrossedBelow]
  have hAboveIff : ∀ bound : Option Rat,
      boundCrossedAbove bound value = true ↔ ∃ b, bound = some b ∧ b ≤ value := by
    intro bound
    cases bound <;> simp [boundCrossedAbove]
  refine ⟨?_, ?_, ?_, ?_⟩
  · unfold thresholdCheck
    cases List.lookup metric_key thresholds with
    | none => simp
    | some cfg => simp only; split_ifs <;> simp
  · intro h
    unfold thresholdCheck
    rw [h]
  · intro cfg hcfg hmode
    have hnotbelow : cfg.mode.getD ("above") ≠ "below" := by rw [hmode]; decide
    refine ⟨?_, ?_, ?_⟩
    · intro hc
      unfold thresholdCheck
      rw [hcfg]
      simp only [if_neg hnotbelow]
      rw [if_pos ((hAboveIff cfg.critical).mpr hc)]
    · intro hc hw
      unfold thresholdCheck
      rw [hcfg]
      simp only [if_neg hnotbelow]
      rw [if_neg (fun h => hc ((hAboveIff cfg.critical).mp h)),
        if_pos ((hAboveIff cfg.warning).mpr hw)]
    · intro hc hw
      unfold thresholdCheck
      rw [hcfg]
      simp only [if_neg hnotbelow]
      rw [if_neg (fun h => hc ((hAboveIff cfg.critical).mp h)),
        if_neg (fun h => hw ((hAboveIff cfg.warning).mp h))]
  · intro cfg hcfg hmode
    refine ⟨?_, ?_, ?_⟩
    · intro hc
      unfold thresholdCheck
      rw [hcfg]
      simp only [if_pos hmode]
      rw [if_pos ((hBelowIff cfg.critical).mpr hc)]
    · intro hc hw
      unfold thresholdCheck
      rw [hcfg]
      simp only [if_pos hmode]
      rw [if_neg (fun h => hc ((hBelowIff cfg.critical).mp h)),
        if_pos ((hBelowIff cfg.warning).mpr hw)]
    · intro hc hw
      unfold thresholdCheck
      rw [hcfg]
      simp only [if_pos hmode]
      rw [if_neg (fun h => hc ((hBelowIff cfg.critical).mp h)),
        if_neg (fun h => hw ((hBelowIff cfg.warning).mp h))]

/-- Witness for C2 at a concrete policy: mode "above" with warning 80 and
critical 90, evaluated at 95, records a CRITICAL although both bounds are
crossed. -/
theorem c2_threshold_evaluation_witness :
    thresholdCheck
      [(("conn_usage_pct"), { warning := some 80, critical := some 90, mode := none })]
      ("conn_usage_pct") 95 = some NAGIOS_CRITICAL :=
  ((c2_threshold_evaluation
      [(("conn_usage_pct"), { warning := some 80, critical := some 90, mode := none })]
      ("conn_usage_pct") 95).2.2.1
    { warning := some 80, critical := some 90, mode := none } rfl rfl).1
    ⟨90, rfl, by norm_num⟩

/-! ## Permission-error handling
(MetricsChecker.handle_permission_error, lines 885-900)

Each metric-collection site that can hit an authorization error (error
code 13) catches it and calls handle_permission_error with the affected
metric keys, then control continues with the next collection section, so a
run is a fold over its sections. -/

/-- The CRITICAL message of lines 891-894, as a function of the error text
and the affected keys. -/
def permDeniedRequiredMsg (error : String) (metric_keys : List String) : String :=
  "Permission denied for metrics " ++ toString metric_keys
    ++ " (required by thresholds): " ++ error

/-- The WARNING message of lines 896-900. -/
def permDeniedIgnoredMsg (error : String) (metric_keys : List String) : String :=
  "Permission denied for metrics " ++ toString metric_keys ++ " (ignored): " ++ error

/-- handle_permission_error (lines 885-900): CRITICAL when any affected key
is in the threshold configuration, WARNING otherwise. It records one
finding and returns; nothing propagates. -/
def handle_permission_error (thresholds : List (String × ThresholdCfg))
    (o : IcingaOutput) (error : String) (metric_keys : List String) : IcingaOutput :=
  let needed := metric_keys.any fun k => (List.lookup k thresholds).isSome
  if needed then
    add_message o NAGIOS_CRITICAL (permDeniedRequiredMsg error metric_keys)
  else
    add_message o NAGIOS_WARNING (permDeniedIgnoredMsg error metric_keys)

/-- One section of a metrics collection run: either it succeeds, or it hits
an authorization error on the given metric keys, which the enclosing
try/except hands to handle_permission_error before continuing. -/
inductive SectionOutcome where
  | ok
  | permissionError (error : String) (metric_keys : List String)
deriving Repr, DecidableEq

/-- A metrics run as the _collect_metrics control flow sees it: the
sections run in order and every permission error is handled in place, so
the fold always produces a terminal output. -/
def runSections (thresholds : List (String × ThresholdCfg)) (o : IcingaOutput)
    (sections : List SectionOutcome) : IcingaOutput :=
  sections.foldl
    (fun acc s =>
      match s with
      | SectionOutcome.ok => acc
      | SectionOutcome.permissionError e ks => handle_permission_error thresholds acc e ks)
    o

theorem runSections_cons_ok (thresholds : List (String × ThresholdCfg))
    (o : IcingaOutput) (rest : List SectionOutcome) :
    runSections thresholds o (SectionOutcome.ok :: rest) = runSections thresholds o rest :=
  rfl

theorem runSections_cons_perm (thresholds : List (String × ThresholdCfg))
    (o : IcingaOutput) (e : String) (ks : List String) (rest : List SectionOutcome) :
    runSections thresholds o (SectionOutcome.permissionError e ks :: rest)
      = runSections thresholds (handle_permission_error thresholds o e ks) rest :=
  rfl

theorem handle_permission_error_status_unconfigured
    (thresholds : List (String × ThresholdCfg)) (o : IcingaOutput) (error : String)
    (metric_keys : List String)
    (hk : (metric_keys.any fun k => (List.lookup k thresholds).isSome) = false) :
    (handle_permission_error thresholds o error metric_keys).status
      = (set_status o NAGIOS_WARNING).status := by
  simp only [handle_permission_error, add_message, hk]
  simp

theorem set_status_warning_of_warning (o : IcingaOutput)
    (ho : o.status = NAGIOS_WARNING) :
    (set_status o NAGIOS_WARNING).status = NAGIOS_WARNING := by
  unfold set_status NAGIOS_OK NAGIOS_WARNING NAGIOS_CRITICAL NAGIOS_UNKNOWN at *
  split_ifs <;> simp_all

theorem set_status_warning_of_ok (o : IcingaOutput)
    (ho : o.status = NAGIOS_OK) :
    (set_status o NAGIOS_WARNING).status = NAGIOS_WARNING := by
  unfold set_status NAGIOS_OK NAGIOS_WARNING NAGIOS_CRITICAL NAGIOS_UNKNOWN at *
  split_ifs <;> simp_all

theorem runSections_status_warning (thresholds : List (String × ThresholdCfg))
    (o : IcingaOutput) (sections : List SectionOutcome)
    (hconf : ∀ e ks, SectionOutcome.permissionError e ks ∈ sections →
      (ks.any fun k => (List.lookup k thresholds).isSome) = false)
    (ho : o.status = NAGIOS_WARNING) :
    (runSections thresholds o sections).status = NAGIOS_WARNING := by
  induction sections generalizing o with
  | nil => exact ho
  | cons s rest ih =>
      have hrest : ∀ e ks, SectionOutcome.permissionError e ks ∈ rest →
          (ks.any fun k => (List.lookup k thresholds).isSome) = false :=
        fun e ks h => hconf e ks (List.mem_cons_of_mem s h)
      cases s with
      | ok =>
          rw [runSections_cons_ok]
          exact ih o hrest ho
      | permissionError e ks =>
          rw [runSections_cons_perm]
          apply ih _ hrest
          have hk := hconf e ks (List.mem_cons_self _ rest)
          rw [handle_permission_error_status_unconfigured thresholds o e ks hk]
          exact set_status_warning_of_warning o ho

/-- Claim C8: for every authorization error hit while collecting metrics,
if any affected metric key has a threshold policy configured the recorded
finding is CRITICAL; if none has, the recorded finding is WARNING only;
and the collection run folds on past the error to a terminal result: from
an OK run, sections whose permission errors all touch unconfigured keys
end with overall severity WARNING, not CRITICAL, as soon as one such error
occurred. -/
theorem c8_permission_error_policy (thresholds : List (String × ThresholdCfg))
    (o : IcingaOutput) (error : String) (metric_keys : List String) :
    ((metric_keys.any fun k => (List.lookup k thresholds).isSome) = true →
      handle_permission_error thresholds o error metric_keys
        = add_message o NAGIOS_CRITICAL (permDeniedRequiredMsg error metric_keys))
  ∧ ((metric_keys.any fun k => (List.lookup k thresholds).isSome) = false →
      handle_permission_error thresholds o error metric_keys
        = add_message o NAGIOS_WARNING (permDeniedIgnoredMsg error metric_keys))
  ∧ (∀ sections : List SectionOutcome,
      o.status = NAGIOS_OK →
      (∀ e ks, SectionOutcome.permissionError e ks ∈ sections →
        (ks.any fun k => (List.lookup k thresholds).isSome) = false) →
      (∃ e ks, SectionOutcome.permissionError e ks ∈ sections) →
      (runSections thresholds o sections).status = NAGIOS_WARNING) := by
  refine ⟨?_, ?_, ?_⟩
  · intro h
    unfold handle_permission_error
    rw [h]
    simp
  · intro h
    unfold handle_permission_error
    rw [h]
    simp
  · intro sections ho hconf hsome
    induction sections generalizing o with
    | nil =>
        obtain ⟨e, ks, h⟩ := hsome
        cases h
    | cons s rest ih =>
        have hrest : ∀ e ks, SectionOutcome.permissionError e ks ∈ rest →
            (ks.any fun k => (List.lookup k thresholds).isSome) = false :=
          fun e ks h => hconf e ks (List.mem_cons_of_mem s h)
        cases s with
        | ok =>
            rw [runSections_cons_ok]
            apply ih o ho hrest
            obtain ⟨e, ks, h⟩ := hsome
            rcases List.mem_cons.mp h with h | h
            · cases h
            · exact ⟨e, ks, h⟩
        | permissionError e ks =>
            rw [runSections_cons_perm]
            have hk := hconf e ks (List.mem_cons_self _ rest)
            have hwarn : (handle_permission_error thresholds o e ks).status
                = NAGIOS_WARNING := by
              rw [handle_permission_error_status_unconfigured thresholds o e ks hk]
              exact set_status_warning_of_ok o ho
            exact runSections_status_warning thresholds _ rest hrest hwarn

/-- Witness for C8 at a concrete run: with no thresholds configured, a
permission error on oplog_window records a WARNING and the run, starting
OK, ends WARNING rather than aborting or going CRITICAL. -/
theorem c8_permission_error_policy_witness :
    handle_permission_error [] outputInit ("Unauthorized") (["oplog_window"])
      = add_message outputInit NAGIOS_WARNING
          (permDeniedIgnoredMsg ("Unauthorized") (["oplog_window"]))
  ∧ (runSections [] outputInit
      [SectionOutcome.ok, SectionOutcome.permissionError ("Unauthorized") (["oplog_window"])]
     ).status = NAGIOS_WARNING :=
  ⟨(c8_permission_error_policy [] outputInit ("Unauthorized") (["oplog_window"])).2.1 rfl,
   (c8_permission_error_policy [] outputInit ("Unauthorized") (["oplog_window"])).2.2
     [SectionOutcome.ok, SectionOutcome.permissionError ("Unauthorized") (["oplog_window"])]
     rfl
     (by
       intro e ks h
       rcases List.mem_cons.mp h with h | h
       · exact SectionOutcome.noConfusion h
       · rcases List.mem_cons.mp h with h | h
         · injection h with h1 h2
           subst h2
           rfl
         · cases h)
     ⟨"Unauthorized", ["oplog_window"],
       List.mem_cons_of_mem _ (List.mem_cons_self _ _)⟩⟩

/-! ## Topology detection and the availability check's entry error handling
(TopologyDetector.detect, lines 264-298; AvailabilityChecker.check,
lines 314-330) -/

/-- The exception classes the entry handler of AvailabilityChecker.check
distinguishes: the tuple (ConnectionFailure, ServerSelectionTimeoutError,
ConfigurationError) caught at line 319, OperationFailure (a command-level
failure, not in that tuple), and any other exception. -/
inductive ExcKind where
  | connFailureClass
  | operationFailure
  | otherError
deriving Repr, DecidableEq

/-- The handshake response fields topology classification reads. -/
structure HelloInfo where
  msg : String
  setName : Option String
deriving Repr, DecidableEq

inductive Topology where
  | standalone
  | replicaset
  | sharded
deriving Repr, DecidableEq

/-- Classification of a handshake response (lines 289-298): msg "isdbgrid"
means sharded; else a non-empty setName means replicaset; else standalone. -/
def classifyTopology (info : HelloInfo) : Topology :=
  if info.msg = "isdbgrid" then Topology.sharded
  else if info.setName.getD ("") ≠ "" then Topology.replicaset
  else Topology.standalone

/-- TopologyDetector.detect (lines 264-298): issue the hello command; only
an OperationFailure triggers the isMaster fallback, whose own exception
propagates; any other exception from hello propagates immediately. -/
def topologyDetect (helloRes isMasterRes : Except ExcKind HelloInfo) :
    Except ExcKind (Topology × HelloInfo) :=
  match helloRes with
  | Except.ok h => Except.ok (classifyTopology h, h)
  | Except.error ExcKind.operationFailure =>
      match isMasterRes with
      | Except.ok h => Except.ok (classifyTopology h, h)
      | Except.error e => Except.error e
  | Except.error e => Except.error e

/-- The entry try/except of AvailabilityChecker.check (lines 314-330),
reduced to the severity it records on failure: the connectivity-class
tuple maps to CRITICAL (line 325), every other exception to UNKNOWN
(line 328), and success records nothing here. -/
def availabilityEntryStatus (res : Except ExcKind (Topology × HelloInfo)) : Option Nat :=
  match res with
  | Except.ok _ => none
  | Except.error ExcKind.connFailureClass => some NAGIOS_CRITICAL
  | Except.error _ => some NAGIOS_UNKNOWN

/-- Claim C7 as stated is false on the code: when the initial connection
fails with a connectivity error (so neither handshake command succeeds),
the recorded severity is CRITICAL, not UNKNOWN — the connectivity-class
handler at line 319 takes precedence. -/
theorem c7_counterexample :
    availabilityEntryStatus
      (topologyDetect (Except.error ExcKind.connFailureClass)
        (Except.error ExcKind.connFailureClass))
      = some NAGIOS_CRITICAL
  ∧ NAGIOS_CRITICAL ≠ NAGIOS_UNKNOWN := by
  decide

/-- Claim C7 amended: when neither handshake command succeeds because both
raise command-level operation failures, the availability check surfaces
the failure as UNKNOWN severity; a connectivity failure establishing the
initial connection (from the hello attempt, or from the isMaster fallback
after hello hits an operation failure) is surfaced as CRITICAL, and any
other unexpected exception as UNKNOWN. -/
theorem c7_amended_entry_severity :
    availabilityEntryStatus
      (topologyDetect (Except.error ExcKind.operationFailure)
        (Except.error ExcKind.operationFailure))
      = some NAGIOS_UNKNOWN
  ∧ (∀ isMasterRes : Except ExcKind HelloInfo,
      availabilityEntryStatus
        (topologyDetect (Except.error ExcKind.connFailureClass) isMasterRes)
        = some NAGIOS_CRITICAL)
  ∧ availabilityEntryStatus
      (topologyDetect (Except.error ExcKind.operationFailure)
        (Except.error ExcKind.connFailureClass))
      = some NAGIOS_CRITICAL
  ∧ (∀ isMasterRes : Except ExcKind HelloInfo,
      availabilityEntryStatus
        (topologyDetect (Except.error ExcKind.otherError) isMasterRes)
        = some NAGIOS_UNKNOWN) := by
  refine ⟨rfl, fun isMasterRes => rfl, rfl, fun isMasterRes => rfl⟩

/-! ## Dynamic capacity threshold
(FilesystemChecker.dynamic_threshold, lines 1211-1229)

The Python computes with floats; the formula is modelled over the reals,
with math.log10 as Real.logb 10. total_gb stands for
total_bytes / 1024 ** 3 and is inlined. -/

noncomputable def dynamic_threshold (total_bytes base_threshold_pct : ℝ) : ℝ :=
  if total_bytes / 1024 ^ 3 ≤ 500 then base_threshold_pct
  else min (base_threshold_pct + Real.logb 10 (total_bytes / 1024 ^ 3 / 500) * 5) 99

/-- The spec's piecewise formula for the effective threshold, written from
the spec's own words (totalGB = totalCapacityBytes / 2^30; basePercent
unchanged up to 500; otherwise min(basePercent + log10(totalGB/500)*5,
99.0)), for comparison with the source's dynamic_threshold. -/
noncomputable def effectiveThreshold_spec (totalCapacityBytes basePercent : ℝ) : ℝ :=
  if totalCapacityBytes / 2 ^ 30 ≤ 500 then basePercent
  else min (basePercent + Real.logb 10 (totalCapacityBytes / 2 ^ 30 / 500) * 5) 99

/-- Claim C5: the source's dynamic threshold equals the spec's piecewise
formula for every capacity and base percentage, and at the boundary of
exactly 500 GiB a base warning of 85 yields 85 unchanged (the 500 GB
branch is inclusive). -/
theorem c5_dynamic_threshold_formula :
    (∀ total_bytes base : ℝ,
      dynamic_threshold total_bytes base = effectiveThreshold_spec total_bytes base)
  ∧ dynamic_threshold (500 * 2 ^ 30) 85 = 85 := by
  have h1024 : ((1024 : ℝ) ^ 3) = 2 ^ 30 := by norm_num
  constructor
  · intro total_bytes base
    unfold dynamic_threshold effectiveThreshold_spec
    rw [h1024]
  · unfold dynamic_threshold
    rw [if_pos (by norm_num)]

/-- Claim C6 as stated is false on the code: re-application at the same
capacity is not idempotent. At 5000 GiB with base 85 the threshold is
min(85 + log10(10) * 5, 99) = 90, and applying the function to 90 at the
same capacity gives 95. Moreover, for a base percentage above 99 (here
100) the result is not bounded by 99.0 at small capacities and is not
monotone in capacity (100 at 1 GiB, 99 at 5000 GiB). -/
theorem c6_counterexample :
    dynamic_threshold (5000 * 1024 ^ 3) (dynamic_threshold (5000 * 1024 ^ 3) 85)
      ≠ dynamic_threshold (5000 * 1024 ^ 3) 85
  ∧ dynamic_threshold (1024 ^ 3) 100 = 100
  ∧ dynamic_threshold (5000 * 1024 ^ 3) 100 = 99 := by
  have hgc : ((5000 * 1024 ^ 3 : ℝ)) / 1024 ^ 3 = 5000 := by norm_num
  have hlog : Real.logb 10 ((5000 : ℝ) / 500) = 1 := by
    rw [show ((5000 : ℝ) / 500) = 10 by norm_num]
    exact Real.logb_self_eq_one (by norm_num)
  have hA : dynamic_threshold (5000 * 1024 ^ 3) 85 = 90 := by
    unfold dynamic_threshold
    rw [hgc, if_neg (by norm_num), hlog]
    norm_num
  have hB : dynamic_threshold (5000 * 1024 ^ 3) 90 = 95 := by
    unfold dynamic_threshold
    rw [hgc, if_neg (by norm_num), hlog]
    norm_num
  refine ⟨?_, ?_, ?_⟩
  · rw [hA, hB]
    norm_num
  · unfold dynamic_threshold
    rw [if_pos (by norm_num)]
  · unfold dynamic_threshold
    rw [hgc, if_neg (by norm_num), hlog]
    norm_num

/-- Claim C6 amended: for every base percentage at most 99, the dynamic
threshold is monotonically non-decreasing as capacity increases and is
bounded above by 99.0; re-application at the same capacity returns the
same value when the capacity is at most 500 GiB, or when the first
application already saturated at 99 — but not in general (see the
counterexample: above 500 GiB and below the cap, re-application adds the
logarithmic increment again). -/
theorem c6_amended_monotone_bounded (base : ℝ) (hbase : base ≤ 99) :
    (∀ c1 c2 : ℝ, c1 ≤ c2 → dynamic_threshold c1 base ≤ dynamic_threshold c2 base)
  ∧ (∀ c : ℝ, dynamic_threshold c base ≤ 99)
  ∧ (∀ c : ℝ, c / 1024 ^ 3 ≤ 500 →
      dynamic_threshold c (dynamic_threshold c base) = dynamic_threshold c base)
  ∧ (∀ c : ℝ, dynamic_threshold c base = 99 →
      dynamic_threshold c (dynamic_threshold c base) = dynamic_threshold c base) := by
  refine ⟨?_, ?_, ?_, ?_⟩
  · intro c1 c2 hc
    have hdiv : c1 / 1024 ^ 3 ≤ c2 / 1024 ^ 3 := by gcongr
    by_cases h2 : c2 / 1024 ^ 3 ≤ 500
    · have h1 : c1 / 1024 ^ 3 ≤ 500 := le_trans hdiv h2
      unfold dynamic_threshold
      rw [if_pos h1, if_pos h2]
    · by_cases h1 : c1 / 1024 ^ 3 ≤ 500
      · unfold dynamic_threshold
        rw [if_pos h1, if_neg h2]
        have hlog : 0 ≤ Real.logb 10 (c2 / 1024 ^ 3 / 500) :=
          Real.logb_nonneg (by norm_num)
            ((one_le_div (by norm_num)).mpr (le_of_lt (not_le.mp h2)))
        refine le_min (by linarith) hbase
      · unfold dynamic_threshold
        rw [if_neg h1, if_neg h2]
        have hpos : (0 : ℝ) < c1 / 1024 ^ 3 / 500 :=
          div_pos (lt_trans (by norm_num) (not_le.mp h1)) (by norm_num)
        have hlog : Real.logb 10 (c1 / 1024 ^ 3 / 500) ≤ Real.logb 10 (c2 / 1024 ^ 3 / 500) :=
          Real.logb_le_logb_of_le (by norm_num) hpos (by gcongr)
        exact min_le_min (by linarith) le_rfl
  · intro c
    by_cases h : c / 1024 ^ 3 ≤ 500
    · unfold dynamic_threshold
      rw [if_pos h]
      exact hbase
    · unfold dynamic_threshold
      rw [if_neg h]
      exact min_le_right _ _
  · intro c hc
    simp only [dynamic_threshold, if_pos hc]
  · intro c h99
    by_cases hc : c / 1024 ^ 3 ≤ 500
    · simp only [dynamic_threshold, if_pos hc]
    · have hlog : 0 ≤ Real.logb 10 (c / 1024 ^ 3 / 500) :=
        Real.logb_nonneg (by norm_num)
          ((one_le_div (by norm_num)).mpr (le_of_lt (not_le.mp hc)))
      rw [h99]
      unfold dynamic_threshold
      rw [if_neg hc, min_eq_right (by linarith)]

/-- Witness for the amended C6 at concrete capacities: with base 85
(so base at most 99 holds), the threshold at 1 GiB is at most the
threshold at 5000 GiB. -/
theorem c6_amended_monotone_bounded_witness :
    dynamic_threshold (1024 ^ 3) 85 ≤ dynamic_threshold (5000 * 1024 ^ 3) 85 :=
  (c6_amended_monotone_bounded 85 (by norm_num)).1 (1024 ^ 3) (5000 * 1024 ^ 3)
    (by norm_num)

end CheckMongodb
